import Mathlib

/- Shallow embedding of the wyvern query model (src/query.rs) and of its SQL
   translation engine (src/adapters/sqlx.rs).

   Modelling conventions:
   * Rust `String`/`&str` is Lean `String`.
   * Rust `i64` is `Int`; the claims under study stay far from wrap-around,
     and the one guaranteed runtime failure in the sources (integer division
     by zero in `Page::new`) is modelled explicitly with `Option`.
   * Rust `f64` values are represented by the decimal text their `Display`
     implementation produces, because the translation engine only ever
     renders them textually (`f.to_string()`).
   * Rust `Vec<T>` is `List T`; `Vec::push` appends at the end.
-/

/-- Values used in filter conditions (`enum ConditionValue`, src/query.rs). -/
inductive ConditionValue where
  | String (s : String)
  | Integer (i : Int)
  | Float (display : String)
  | Boolean (b : Bool)
  | List (values : List ConditionValue)
  | Null

/-- Comparison operators for filter conditions (`enum Operator`, src/query.rs). -/
inductive Operator where
  | Equal
  | NotEqual
  | GreaterThan
  | GreaterThanOrEqual
  | LessThan
  | LessThanOrEqual
  | Like
  | In
  | IsNull
  | IsNotNull

/-- A single filter condition (`struct Condition`, src/query.rs). -/
structure Condition where
  field : String
  operator : Operator
  value : ConditionValue

/-- Sort direction (`enum SortDirection`, src/query.rs). -/
inductive SortDirection where
  | Ascending
  | Descending

/-- Sort order specification (`struct SortOrder`, src/query.rs). -/
structure SortOrder where
  field : String
  direction : SortDirection

/-- Filter criteria for querying entities (`struct FilterCriteria`, src/query.rs). -/
structure FilterCriteria where
  conditions : List Condition
  sort : List SortOrder
  limit : Option Int
  offset : Option Int

/-- Embeds `FilterCriteria::new`, which is `Default::default()`: all parts empty. -/
def FilterCriteria.new : FilterCriteria :=
  { conditions := [], sort := [], limit := none, offset := none }

/-- Embeds `FilterCriteria::with_condition`: pushes one condition at the end. -/
def FilterCriteria.with_condition (self : FilterCriteria) (condition : Condition) :
    FilterCriteria :=
  { self with conditions := self.conditions ++ [condition] }

/-- Embeds `FilterCriteria::with_sort`: pushes one sort order at the end. -/
def FilterCriteria.with_sort (self : FilterCriteria) (sort : SortOrder) : FilterCriteria :=
  { self with sort := self.sort ++ [sort] }

/-- Embeds `FilterCriteria::with_limit`: sets the limit. -/
def FilterCriteria.with_limit (self : FilterCriteria) (limit : Int) : FilterCriteria :=
  { self with limit := some limit }

/-- Embeds `FilterCriteria::with_offset`: sets the offset. -/
def FilterCriteria.with_offset (self : FilterCriteria) (offset : Int) : FilterCriteria :=
  { self with offset := some offset }

/-- Embeds `Condition::new`. -/
def Condition.new (field : String) (operator : Operator) (value : ConditionValue) :
    Condition :=
  { field := field, operator := operator, value := value }

/-- Embeds `Condition::eq`. -/
def Condition.eq (field : String) (value : ConditionValue) : Condition :=
  Condition.new field Operator.Equal value

/-- Embeds `Condition::ne`. -/
def Condition.ne (field : String) (value : ConditionValue) : Condition :=
  Condition.new field Operator.NotEqual value

/-- Embeds `Condition::gt`. -/
def Condition.gt (field : String) (value : ConditionValue) : Condition :=
  Condition.new field Operator.GreaterThan value

/-- Embeds `Condition::lt`. -/
def Condition.lt (field : String) (value : ConditionValue) : Condition :=
  Condition.new field Operator.LessThan value

/-- Embeds `Condition::in_list`. -/
def Condition.in_list (field : String) (values : List ConditionValue) : Condition :=
  Condition.new field Operator.In (ConditionValue.List values)

/-- Embeds `SortOrder::new`. -/
def SortOrder.new (field : String) (direction : SortDirection) : SortOrder :=
  { field := field, direction := direction }

/-- Embeds `SortOrder::asc`. -/
def SortOrder.asc (field : String) : SortOrder :=
  SortOrder.new field SortDirection.Ascending

/-- Embeds `SortOrder::desc`. -/
def SortOrder.desc (field : String) : SortOrder :=
  SortOrder.new field SortDirection.Descending

/-- Character-level model of Rust `s.replace("'", "''")` from
`SqlxAdapter::format_value`: the pattern is the single character `'`, so the
replacement doubles every single quote and leaves every other character
unchanged. -/
def escapeQuotes : List Char → List Char
  | [] => []
  | c :: cs =>
      if c = '\'' then '\'' :: '\'' :: escapeQuotes cs else c :: escapeQuotes cs

/-- String-level wrapper for `escapeQuotes` (the `let escaped = s.replace(...)`
line of `SqlxAdapter::format_value`). -/
def replaceQuote (s : String) : String :=
  String.mk (escapeQuotes s.data)

/-- Model of Rust `Vec::<String>::join(sep)` as used by the adapter. -/
def joinSep (sep : String) : List String → String
  | [] => ""
  | [x] => x
  | x :: xs => x ++ sep ++ joinSep sep xs

mutual

/-- Embeds `SqlxAdapter::format_value` (src/adapters/sqlx.rs): formats a
`ConditionValue` as a SQL literal, doubling single quotes inside strings. -/
def format_value : ConditionValue → String
  | ConditionValue.String s => "'" ++ replaceQuote s ++ "'"
  | ConditionValue.Integer i => toString i
  | ConditionValue.Float display => display
  | ConditionValue.Boolean b => if b then "TRUE" else "FALSE"
  | ConditionValue.Null => "NULL"
  | ConditionValue.List values => "(" ++ joinSep ", " (format_list values) ++ ")"

/-- The `values.iter().map(Self::format_value).collect()` loop of the `List`
branch of `SqlxAdapter::format_value`. -/
def format_list : List ConditionValue → List String
  | [] => []
  | v :: vs => format_value v :: format_list vs

end

/-- The per-condition match inside `SqlxAdapter::build_where_clause`
(src/adapters/sqlx.rs, lines 106..148). -/
def renderCondition (condition : Condition) : String :=
  match condition.operator with
  | Operator.Equal => condition.field ++ " = " ++ format_value condition.value
  | Operator.NotEqual => condition.field ++ " != " ++ format_value condition.value
  | Operator.GreaterThan => condition.field ++ " > " ++ format_value condition.value
  | Operator.GreaterThanOrEqual =>
      condition.field ++ " >= " ++ format_value condition.value
  | Operator.LessThan => condition.field ++ " < " ++ format_value condition.value
  | Operator.LessThanOrEqual =>
      condition.field ++ " <= " ++ format_value condition.value
  | Operator.Like => condition.field ++ " ILIKE " ++ format_value condition.value
  | Operator.IsNull => condition.field ++ " IS NULL"
  | Operator.IsNotNull => condition.field ++ " IS NOT NULL"
  | Operator.In =>
      match condition.value with
      | ConditionValue.List values =>
          condition.field ++ " IN (" ++ joinSep ", " (format_list values) ++ ")"
      | _ => condition.field ++ " = " ++ format_value condition.value

/-- Embeds `SqlxAdapter::build_where_clause`: empty text for no conditions, otherwise
the rendered conditions joined with " AND ". -/
def build_where_clause (criteria : FilterCriteria) : String :=
  if criteria.conditions.isEmpty then ""
  else joinSep " AND " (criteria.conditions.map renderCondition)

/-- The per-sort-order rendering inside `SqlxAdapter::build_select_query`
("{field} {ASC|DESC}"). -/
def renderSort (s : SortOrder) : String :=
  s.field ++ " " ++
    match s.direction with
    | SortDirection.Ascending => "ASC"
    | SortDirection.Descending => "DESC"

/-- Embeds `SqlxAdapter::build_select_query`: SELECT with optional WHERE, ORDER BY,
LIMIT and OFFSET clauses, appended in that fixed order. -/
def build_select_query (table_name : String) (criteria : FilterCriteria) : String :=
  let query := "SELECT * FROM " ++ table_name
  let where_clause := build_where_clause criteria
  let query := if where_clause = "" then query else query ++ " WHERE " ++ where_clause
  let query :=
    if criteria.sort.isEmpty then query
    else query ++ " ORDER BY " ++ joinSep ", " (criteria.sort.map renderSort)
  let query :=
    match criteria.limit with
    | some limit => query ++ " LIMIT " ++ toString limit
    | none => query
  let query :=
    match criteria.offset with
    | some offset => query ++ " OFFSET " ++ toString offset
    | none => query
  query

/-- Embeds `SqlxAdapter::build_count_query`: SELECT COUNT(*) with the same optional
WHERE clause and nothing else. -/
def build_count_query (table_name : String) (criteria : FilterCriteria) : String :=
  let query := "SELECT COUNT(*) FROM " ++ table_name
  let where_clause := build_where_clause criteria
  if where_clause = "" then query else query ++ " WHERE " ++ where_clause

/-- Pagination parameters (`struct Pagination`, src/query.rs). -/
structure Pagination where
  page : Int
  per_page : Int

/-- Embeds `Pagination::new`. -/
def Pagination.new (page : Int) (per_page : Int) : Pagination :=
  { page := page, per_page := per_page }

/-- Embeds `Pagination::offset`: `(page - 1) * per_page`, with no validation. -/
def Pagination.offset (self : Pagination) : Int :=
  (self.page - 1) * self.per_page

/-- Embeds `Pagination::limit`: `per_page`, with no validation. -/
def Pagination.limit (self : Pagination) : Int :=
  self.per_page

/-- A page of results with metadata (`struct Page<T>`, src/query.rs). -/
structure Page (T : Type) where
  items : List T
  page : Int
  per_page : Int
  total_items : Int
  total_pages : Int

/-- Rust `i64` division: truncation toward zero; `none` models the
divide-by-zero panic, which Rust guarantees in every build profile. -/
def i64Div (a b : Int) : Option Int :=
  if b = 0 then none else some (Int.tdiv a b)

/-- Embeds `Page::new` (src/query.rs): computes
`total_pages = (total_items + per_page - 1) / per_page` with unguarded i64
division, then stores every argument verbatim. -/
def Page.new {T : Type} (items : List T) (page : Int) (per_page : Int)
    (total_items : Int) : Option (Page T) :=
  (i64Div (total_items + per_page - 1) per_page).map fun total_pages =>
    { items := items, page := page, per_page := per_page,
      total_items := total_items, total_pages := total_pages }

/-- Embeds `Page::has_next`. -/
def Page.has_next {T : Type} (self : Page T) : Bool :=
  self.page < self.total_pages

/-- Embeds `Page::has_previous`. -/
def Page.has_previous {T : Type} (self : Page T) : Bool :=
  self.page > 1

/-- Embeds `Page::next_page`. -/
def Page.next_page {T : Type} (self : Page T) : Option Int :=
  if self.has_next then some (self.page + 1) else none

/-- Embeds `Page::previous_page`. -/
def Page.previous_page {T : Type} (self : Page T) : Option Int :=
  if self.has_previous then some (self.page - 1) else none

/-- Number of occurrences of the pattern `p` in a character list: one per
position at which `p` is a prefix of the corresponding suffix. -/
def countOccs (p : List Char) : List Char → Nat
  | [] => 0
  | c :: cs => (if p.isPrefixOf (c :: cs) then 1 else 0) + countOccs p cs

/-- Boolean test distinguishing `List` values, used to state the `In`
operator's documented scalar fallback. -/
def ConditionValue.isList : ConditionValue → Bool
  | ConditionValue.List _ => true
  | _ => false

lemma format_list_eq_map (vs : List ConditionValue) :
    format_list vs = vs.map format_value := by
  induction vs with
  | nil => rfl
  | cons v vs ih => simp [format_list, ih]

lemma data_ne_nil_imp_ne_empty (s : String) (h : s.data ≠ []) : s ≠ "" :=
  fun he => h ((congrArg String.data he).trans rfl)

lemma renderCondition_ne_empty (c : Condition) : renderCondition c ≠ "" := by
  apply data_ne_nil_imp_ne_empty
  cases c with
  | mk f op v =>
    cases op <;> simp [renderCondition, String.data_append]
    · cases v <;> simp [String.data_append]


lemma eq_empty_of_data_nil (s : String) (h : s.data = []) : s = "" := by
  cases s with
  | mk l => cases h; rfl

lemma joinSep_ne_empty (sep : String) (x : String) (xs : List String)
    (hx : x ≠ "") : joinSep sep (x :: xs) ≠ "" := by
  cases xs with
  | nil => simpa [joinSep] using hx
  | cons y ys =>
    apply data_ne_nil_imp_ne_empty
    simp only [joinSep, String.data_append, ne_eq, List.append_eq_nil]
    intro h
    exact hx (eq_empty_of_data_nil x h.1.1)

lemma build_where_clause_eq_empty_iff (c : FilterCriteria) :
    build_where_clause c = "" ↔ c.conditions = [] := by
  unfold build_where_clause
  cases h : c.conditions with
  | nil => simp
  | cons d ds =>
    simp only [List.isEmpty_cons, if_neg]
    constructor
    · intro he
      exact absurd he (by
        simpa using joinSep_ne_empty " AND " (renderCondition d) (ds.map renderCondition)
          (renderCondition_ne_empty d))
    · intro hcc; cases hcc

lemma build_select_query_eq (t : String) (c : FilterCriteria) :
    build_select_query t c =
      "SELECT * FROM " ++ t
      ++ (if c.conditions.isEmpty then ""
          else " WHERE " ++ joinSep " AND " (c.conditions.map renderCondition))
      ++ (if c.sort.isEmpty then ""
          else " ORDER BY " ++ joinSep ", " (c.sort.map renderSort))
      ++ (match c.limit with | some l => " LIMIT " ++ toString l | none => "")
      ++ (match c.offset with | some o => " OFFSET " ++ toString o | none => "") := by
  unfold build_select_query build_where_clause
  cases hc : c.conditions with
  | nil =>
    cases hs : c.sort <;> cases hl : c.limit <;> cases ho : c.offset <;>
      simp [hc, hs, hl, ho, String.append_assoc, String.append_empty]
  | cons d ds =>
    have hne : joinSep " AND " (renderCondition d :: ds.map renderCondition) ≠ "" :=
      joinSep_ne_empty " AND " (renderCondition d) (ds.map renderCondition)
        (renderCondition_ne_empty d)
    cases hs : c.sort <;> cases hl : c.limit <;> cases ho : c.offset <;>
      simp [hc, hs, hl, ho, hne, String.append_assoc, String.append_empty]

lemma build_count_query_eq (t : String) (c : FilterCriteria) :
    build_count_query t c =
      "SELECT COUNT(*) FROM " ++ t
      ++ (if c.conditions.isEmpty then ""
          else " WHERE " ++ joinSep " AND " (c.conditions.map renderCondition)) := by
  unfold build_count_query build_where_clause
  cases hc : c.conditions with
  | nil => simp [hc]
  | cons d ds =>
    have hne : joinSep " AND " (renderCondition d :: ds.map renderCondition) ≠ "" :=
      joinSep_ne_empty " AND " (renderCondition d) (ds.map renderCondition)
        (renderCondition_ne_empty d)
    simp [hc, hne, String.append_assoc]

lemma isPrefixOf_append_cons (p : List Char) (ch : Char) (h : ch ∉ p) :
    ∀ a b : List Char, p.isPrefixOf (a ++ ch :: b) = p.isPrefixOf a := by
  induction p with
  | nil => intro a b; simp [List.isPrefixOf]
  | cons q p' ih =>
    intro a b
    cases a with
    | nil =>
      have hq : q ≠ ch := by simp at h; exact fun he => h.1 he.symm
      simp [List.isPrefixOf, hq]
    | cons x a' =>
      have h' : ch ∉ p' := by simp at h; exact h.2
      simp [List.isPrefixOf, ih h']

lemma countOccs_append_cons (p : List Char) (ch : Char) (hp : p ≠ [])
    (h : ch ∉ p) : ∀ a b : List Char,
    countOccs p (a ++ ch :: b) = countOccs p a + countOccs p b := by
  intro a b
  induction a with
  | nil =>
    have hpre : p.isPrefixOf (ch :: b) = p.isPrefixOf ([] : List Char) :=
      isPrefixOf_append_cons p ch h [] b
    have hfalse : p.isPrefixOf ([] : List Char) = false := by
      cases p with
      | nil => exact absurd rfl hp
      | cons q p' => rfl
    simp [countOccs, hpre, hfalse]
  | cons x a' ih =>
    have hpre : p.isPrefixOf ((x :: a') ++ ch :: b) = p.isPrefixOf (x :: a') :=
      isPrefixOf_append_cons p ch h (x :: a') b
    simp only [List.cons_append, countOccs, List.append_eq] at *
    simp only [hpre, ih]
    omega

lemma isPrefixOf_trans : ∀ (p q l : List Char), p.isPrefixOf q = true →
    q.isPrefixOf l = true → p.isPrefixOf l = true := by
  intro p
  induction p with
  | nil => intro q l _ _; simp [List.isPrefixOf]
  | cons a p' ih =>
    intro q l hpq hql
    cases q with
    | nil => simp [List.isPrefixOf] at hpq
    | cons b q' =>
      cases l with
      | nil => simp [List.isPrefixOf] at hql
      | cons c l' =>
        simp only [List.isPrefixOf, Bool.and_eq_true, beq_iff_eq] at *
        exact ⟨hpq.1.trans hql.1, ih q' l' hpq.2 hql.2⟩

lemma countOccs_zero_mono (p q : List Char) (hpq : p.isPrefixOf q = true) :
    ∀ l : List Char, countOccs p l = 0 → countOccs q l = 0 := by
  intro l
  induction l with
  | nil => intro; rfl
  | cons c cs ih =>
    intro h
    simp only [countOccs] at *
    have h1 : countOccs p cs = 0 := by omega
    have h2 : p.isPrefixOf (c :: cs) = false := by
      cases hbv : p.isPrefixOf (c :: cs) with
      | false => rfl
      | true => simp [hbv] at h
    have h3 : q.isPrefixOf (c :: cs) = false := by
      cases hbv : q.isPrefixOf (c :: cs) with
      | false => rfl
      | true => rw [isPrefixOf_trans p q (c :: cs) hpq hbv] at h2; cases h2
    simp [h3, ih h1]

/-- Predicate on character lists used to split occurrence counts across the
clause boundaries of the generated queries: the list is empty or starts with a
space. -/
def spaceHeaded (l : List Char) : Prop := l = [] ∨ ∃ l', l = ' ' :: l'

lemma spaceHeaded_append {a b : List Char} (ha : spaceHeaded a)
    (hb : spaceHeaded b) : spaceHeaded (a ++ b) := by
  cases ha with
  | inl h => subst h; simpa using hb
  | inr h => obtain ⟨a', rfl⟩ := h; exact Or.inr ⟨a' ++ b, rfl⟩

lemma countOccs_cons_space (p b : List Char) (hp : p ≠ []) (hsp : ' ' ∉ p) :
    countOccs p (' ' :: b) = countOccs p b := by
  have := countOccs_append_cons p ' ' hp hsp [] b
  simpa [countOccs] using this

lemma countOccs_append_spaceHeaded (p a b : List Char) (hp : p ≠ [])
    (hsp : ' ' ∉ p) (hb : spaceHeaded b) :
    countOccs p (a ++ b) = countOccs p a + countOccs p b := by
  cases hb with
  | inl h => subst h; simp [countOccs]
  | inr h =>
    obtain ⟨b', rfl⟩ := h
    rw [countOccs_append_cons p ' ' hp hsp a b', countOccs_cons_space p b' hp hsp]

/-- Number of occurrences of a pattern string inside another string. -/
def strOccs (pat s : String) : Nat := countOccs pat.data s.data

lemma joinSep_cons₂ (sep x y : String) (rest : List String) :
    joinSep sep (x :: y :: rest) = x ++ sep ++ joinSep sep (y :: rest) := rfl

lemma strOccs_joinSep_and (P : String) (hp : P.data ≠ []) (hsp : ' ' ∉ P.data) :
    ∀ ss : List String, (∀ s ∈ ss, strOccs P s = 0) → ss ≠ [] →
    strOccs P (joinSep " AND " ss) = (ss.length - 1) * strOccs P "AND" := by
  intro ss
  induction ss with
  | nil => intro _ hne; exact absurd rfl hne
  | cons x xs ih =>
    intro h _
    cases xs with
    | nil => simpa [joinSep] using h x (by simp)
    | cons y rest =>
      have hx : strOccs P x = 0 := h x (by simp)
      have htail : strOccs P (joinSep " AND " (y :: rest)) =
          ((y :: rest).length - 1) * strOccs P "AND" := by
        refine ih ?_ (by simp)
        intro s hs
        exact h s (by simp [hs])
      have hdata : (joinSep " AND " (x :: y :: rest)).data =
          x.data ++ ' ' :: (('A' :: 'N' :: 'D' :: []) ++
            ' ' :: (joinSep " AND " (y :: rest)).data) := by
        rw [joinSep_cons₂]
        simp [String.data_append]
      unfold strOccs
      rw [hdata, countOccs_append_cons P.data ' ' hp hsp,
        countOccs_append_cons P.data ' ' hp hsp]
      have hAND : ("AND" : String).data = 'A' :: 'N' :: 'D' :: [] := rfl
      unfold strOccs at hx htail
      rw [hx, ← hAND, htail]
      simp [Nat.succ_mul, Nat.add_mul]
      omega

lemma strOccs_joinSep_comma (P : String) (hp : P.data ≠ []) (hsp : ' ' ∉ P.data)
    (hcm : ',' ∉ P.data) : ∀ ss : List String, (∀ s ∈ ss, strOccs P s = 0) →
    strOccs P (joinSep ", " ss) = 0 := by
  intro ss
  induction ss with
  | nil =>
    intro _
    simp [strOccs, joinSep, countOccs]
  | cons x xs ih =>
    intro h
    cases xs with
    | nil => simpa [joinSep] using h x (by simp)
    | cons y rest =>
      have hx : strOccs P x = 0 := h x (by simp)
      have htail : strOccs P (joinSep ", " (y :: rest)) = 0 := by
        refine ih ?_
        intro s hs
        exact h s (by simp [hs])
      have hdata : (joinSep ", " (x :: y :: rest)).data =
          x.data ++ ',' :: (' ' :: (joinSep ", " (y :: rest)).data) := by
        rw [joinSep_cons₂]
        simp [String.data_append]
      unfold strOccs
      rw [hdata, countOccs_append_cons P.data ',' hp hcm,
        countOccs_cons_space P.data _ hp hsp]
      unfold strOccs at hx htail
      rw [hx, htail]

lemma strOccs_base_select (P t : String) (hp : P.data ≠ []) (hsp : ' ' ∉ P.data)
    (hS : strOccs P "SELECT" = 0) (hstar : strOccs P "*" = 0)
    (hF : strOccs P "FROM" = 0) (ht : strOccs P t = 0) :
    strOccs P ("SELECT * FROM " ++ t) = 0 := by
  have hdata : (("SELECT * FROM " : String) ++ t).data =
      ("SELECT" : String).data ++ ' ' :: (("*" : String).data ++
        ' ' :: (("FROM" : String).data ++ ' ' :: t.data)) := by
    simp [String.data_append]
  unfold strOccs at *
  rw [hdata, countOccs_append_cons P.data ' ' hp hsp,
    countOccs_append_cons P.data ' ' hp hsp,
    countOccs_append_cons P.data ' ' hp hsp, hS, hstar, hF, ht]

lemma strOccs_where_part (P : String) (hp : P.data ≠ []) (hsp : ' ' ∉ P.data)
    (conds : List Condition)
    (h : ∀ d ∈ conds, strOccs P (renderCondition d) = 0) (hne : conds ≠ []) :
    strOccs P (" WHERE " ++ joinSep " AND " (conds.map renderCondition)) =
      strOccs P "WHERE" + (conds.length - 1) * strOccs P "AND" := by
  have hdata : ((" WHERE " : String) ++ joinSep " AND " (conds.map renderCondition)).data =
      ' ' :: (("WHERE" : String).data ++
        ' ' :: (joinSep " AND " (conds.map renderCondition)).data) := by
    simp [String.data_append]
  have hjoin : strOccs P (joinSep " AND " (conds.map renderCondition)) =
      ((conds.map renderCondition).length - 1) * strOccs P "AND" := by
    refine strOccs_joinSep_and P hp hsp _ ?_ (by simpa using hne)
    intro s hs
    obtain ⟨d, hd, rfl⟩ := List.mem_map.mp hs
    exact h d hd
  unfold strOccs at *
  rw [hdata, countOccs_cons_space P.data _ hp hsp,
    countOccs_append_cons P.data ' ' hp hsp, hjoin]
  simp

lemma strOccs_order_part (P : String) (hp : P.data ≠ []) (hsp : ' ' ∉ P.data)
    (hcm : ',' ∉ P.data) (hO : strOccs P "ORDER" = 0) (hB : strOccs P "BY" = 0)
    (sorts : List SortOrder) (h : ∀ s ∈ sorts, strOccs P (renderSort s) = 0) :
    strOccs P (" ORDER BY " ++ joinSep ", " (sorts.map renderSort)) = 0 := by
  have hdata : ((" ORDER BY " : String) ++ joinSep ", " (sorts.map renderSort)).data =
      ' ' :: (("ORDER" : String).data ++
        ' ' :: (("BY" : String).data ++
          ' ' :: (joinSep ", " (sorts.map renderSort)).data)) := by
    simp [String.data_append]
  have hjoin : strOccs P (joinSep ", " (sorts.map renderSort)) = 0 := by
    refine strOccs_joinSep_comma P hp hsp hcm _ ?_
    intro s hs
    obtain ⟨d, hd, rfl⟩ := List.mem_map.mp hs
    exact h d hd
  unfold strOccs at *
  rw [hdata, countOccs_cons_space P.data _ hp hsp,
    countOccs_append_cons P.data ' ' hp hsp,
    countOccs_append_cons P.data ' ' hp hsp, hO, hB, hjoin]

lemma strOccs_limit_part (P : String) (hp : P.data ≠ []) (hsp : ' ' ∉ P.data)
    (hL : strOccs P "LIMIT" = 0) (s : String) (hs : strOccs P s = 0) :
    strOccs P (" LIMIT " ++ s) = 0 := by
  have hdata : ((" LIMIT " : String) ++ s).data =
      ' ' :: (("LIMIT" : String).data ++ ' ' :: s.data) := by
    simp [String.data_append]
  unfold strOccs at *
  rw [hdata, countOccs_cons_space P.data _ hp hsp,
    countOccs_append_cons P.data ' ' hp hsp, hL, hs]

lemma strOccs_offset_part (P : String) (hp : P.data ≠ []) (hsp : ' ' ∉ P.data)
    (hOff : strOccs P "OFFSET" = 0) (s : String) (hs : strOccs P s = 0) :
    strOccs P (" OFFSET " ++ s) = 0 := by
  have hdata : ((" OFFSET " : String) ++ s).data =
      ' ' :: (("OFFSET" : String).data ++ ' ' :: s.data) := by
    simp [String.data_append]
  unfold strOccs at *
  rw [hdata, countOccs_cons_space P.data _ hp hsp,
    countOccs_append_cons P.data ' ' hp hsp, hOff, hs]

lemma strOccs_build_select (P t : String) (c : FilterCriteria)
    (hp : P.data ≠ []) (hsp : ' ' ∉ P.data) (hcm : ',' ∉ P.data)
    (hS : strOccs P "SELECT" = 0) (hstar : strOccs P "*" = 0)
    (hF : strOccs P "FROM" = 0) (hO : strOccs P "ORDER" = 0)
    (hB : strOccs P "BY" = 0) (hL : strOccs P "LIMIT" = 0)
    (hOff : strOccs P "OFFSET" = 0) (ht : strOccs P t = 0)
    (hconds : ∀ d ∈ c.conditions, strOccs P (renderCondition d) = 0)
    (hsorts : ∀ s ∈ c.sort, strOccs P (renderSort s) = 0)
    (hlim : ∀ n, c.limit = some n → strOccs P (toString n) = 0)
    (hoffs : ∀ n, c.offset = some n → strOccs P (toString n) = 0) :
    strOccs P (build_select_query t c) =
      if c.conditions.isEmpty then 0
      else strOccs P "WHERE" + (c.conditions.length - 1) * strOccs P "AND" := by
  rw [build_select_query_eq]
  have hWc : strOccs P (if c.conditions.isEmpty then ""
      else " WHERE " ++ joinSep " AND " (c.conditions.map renderCondition)) =
      (if c.conditions.isEmpty then 0
       else strOccs P "WHERE" + (c.conditions.length - 1) * strOccs P "AND") := by
    cases hcc : c.conditions with
    | nil => simp [strOccs, countOccs]
    | cons d ds =>
      simp only [hcc, List.isEmpty_cons, if_neg, Bool.false_eq_true, not_false_iff]
      exact strOccs_where_part P hp hsp (d :: ds) (by rw [← hcc]; exact fun d hd => hconds d (hcc ▸ hd)) (by simp)
  have hOc : strOccs P (if c.sort.isEmpty then ""
      else " ORDER BY " ++ joinSep ", " (c.sort.map renderSort)) = 0 := by
    cases hss : c.sort with
    | nil => simp [strOccs, countOccs]
    | cons s ss =>
      simp only [hss, List.isEmpty_cons, if_neg, Bool.false_eq_true, not_false_iff]
      exact strOccs_order_part P hp hsp hcm hO hB (s :: ss)
        (fun d hd => hsorts d (hss ▸ hd))
  have hLc : strOccs P (match c.limit with
      | some l => " LIMIT " ++ toString l
      | none => "") = 0 := by
    cases hll : c.limit with
    | none => simp [strOccs, countOccs]
    | some n => exact strOccs_limit_part P hp hsp hL (toString n) (hlim n hll)
  have hFc : strOccs P (match c.offset with
      | some o => " OFFSET " ++ toString o
      | none => "") = 0 := by
    cases hoo : c.offset with
    | none => simp [strOccs, countOccs]
    | some n => exact strOccs_offset_part P hp hsp hOff (toString n) (hoffs n hoo)
  have shW : spaceHeaded (if c.conditions.isEmpty then ""
      else (" WHERE " : String) ++ joinSep " AND " (c.conditions.map renderCondition)).data := by
    cases c.conditions.isEmpty <;> simp [spaceHeaded, String.data_append]
  have shO : spaceHeaded (if c.sort.isEmpty then ""
      else (" ORDER BY " : String) ++ joinSep ", " (c.sort.map renderSort)).data := by
    cases c.sort.isEmpty <;> simp [spaceHeaded, String.data_append]
  have shL : spaceHeaded ((match c.limit with
      | some l => " LIMIT " ++ toString l
      | none => "") : String).data := by
    cases c.limit <;> simp [spaceHeaded, String.data_append]
  have shF : spaceHeaded ((match c.offset with
      | some o => " OFFSET " ++ toString o
      | none => "") : String).data := by
    cases c.offset <;> simp [spaceHeaded, String.data_append]
  unfold strOccs at *
  rw [String.data_append, String.data_append, String.data_append, String.data_append,
    countOccs_append_spaceHeaded P.data _ _ hp hsp shF,
    countOccs_append_spaceHeaded P.data _ _ hp hsp shL,
    countOccs_append_spaceHeaded P.data _ _ hp hsp shO,
    countOccs_append_spaceHeaded P.data _ _ hp hsp shW]
  rw [hWc, hOc, hLc, hFc]
  have hbase := strOccs_base_select P t hp hsp hS hstar hF ht
  unfold strOccs at hbase
  rw [hbase]
  cases c.conditions.isEmpty <;> simp

lemma strOccs_base_count (P t : String) (hp : P.data ≠ []) (hsp : ' ' ∉ P.data)
    (hS : strOccs P "SELECT" = 0) (hcnt : strOccs P "COUNT(*)" = 0)
    (hF : strOccs P "FROM" = 0) (ht : strOccs P t = 0) :
    strOccs P ("SELECT COUNT(*) FROM " ++ t) = 0 := by
  have hdata : (("SELECT COUNT(*) FROM " : String) ++ t).data =
      ("SELECT" : String).data ++ ' ' :: (("COUNT(*)" : String).data ++
        ' ' :: (("FROM" : String).data ++ ' ' :: t.data)) := by
    simp [String.data_append]
  unfold strOccs at *
  rw [hdata, countOccs_append_cons P.data ' ' hp hsp,
    countOccs_append_cons P.data ' ' hp hsp,
    countOccs_append_cons P.data ' ' hp hsp, hS, hcnt, hF, ht]

lemma strOccs_build_count (P t : String) (c : FilterCriteria)
    (hp : P.data ≠ []) (hsp : ' ' ∉ P.data)
    (hS : strOccs P "SELECT" = 0) (hcnt : strOccs P "COUNT(*)" = 0)
    (hF : strOccs P "FROM" = 0) (ht : strOccs P t = 0)
    (hconds : ∀ d ∈ c.conditions, strOccs P (renderCondition d) = 0) :
    strOccs P (build_count_query t c) =
      if c.conditions.isEmpty then 0
      else strOccs P "WHERE" + (c.conditions.length - 1) * strOccs P "AND" := by
  rw [build_count_query_eq]
  have hWc : strOccs P (if c.conditions.isEmpty then ""
      else " WHERE " ++ joinSep " AND " (c.conditions.map renderCondition)) =
      (if c.conditions.isEmpty then 0
       else strOccs P "WHERE" + (c.conditions.length - 1) * strOccs P "AND") := by
    cases hcc : c.conditions with
    | nil => simp [strOccs, countOccs]
    | cons d ds =>
      simp only [hcc, List.isEmpty_cons, if_neg, Bool.false_eq_true, not_false_iff]
      exact strOccs_where_part P hp hsp (d :: ds)
        (fun d hd => hconds d (hcc ▸ hd)) (by simp)
  have shW : spaceHeaded (if c.conditions.isEmpty then ""
      else (" WHERE " : String) ++ joinSep " AND " (c.conditions.map renderCondition)).data := by
    cases c.conditions.isEmpty <;> simp [spaceHeaded, String.data_append]
  unfold strOccs at *
  rw [String.data_append,
    countOccs_append_spaceHeaded P.data _ _ hp hsp shW, hWc]
  have hbase := strOccs_base_count P t hp hsp hS hcnt hF ht
  unfold strOccs at hbase
  rw [hbase]
  cases c.conditions.isEmpty <;> simp

lemma escapeQuotes_eq_flatMap (l : List Char) :
    escapeQuotes l = l.flatMap fun c => if c = '\'' then ['\'', '\''] else [c] := by
  induction l with
  | nil => rfl
  | cons c cs ih =>
    by_cases hc : c = '\'' <;> simp [escapeQuotes, hc, ih]

lemma count_escapeQuotes (l : List Char) :
    (escapeQuotes l).count '\'' = 2 * l.count '\'' := by
  induction l with
  | nil => rfl
  | cons c cs ih =>
    by_cases hc : c = '\''
    · subst hc
      simp [escapeQuotes, List.count_cons, ih]
      omega
    · simp [escapeQuotes, hc, List.count_cons, ih]

lemma ceil_div_eq_tdiv (t p : Int) (ht : 0 ≤ t) (hp : 1 ≤ p) :
    ⌈(t : ℚ) / (p : ℚ)⌉ = Int.tdiv (t + p - 1) p := by
  have hp0 : (0 : Int) < p := by omega
  have hpq : (0 : ℚ) < (p : ℚ) := by exact_mod_cast hp0
  have htd : Int.tdiv (t + p - 1) p = (t + p - 1) / p :=
    Int.tdiv_eq_ediv (by omega) (by omega)
  rw [htd]
  have hmod := Int.ediv_add_emod (t + p - 1) p
  have hr0 : 0 ≤ (t + p - 1) % p := Int.emod_nonneg _ (by omega)
  have hrlt : (t + p - 1) % p < p := Int.emod_lt_of_pos _ hp0
  have h1 : t ≤ p * ((t + p - 1) / p) := by linarith
  have h2 : p * ((t + p - 1) / p) - p < t := by linarith
  rw [Int.ceil_eq_iff]
  constructor
  · rw [lt_div_iff₀ hpq]
    have h2q : (p : ℚ) * ((t + p - 1) / p : Int) - p < t := by exact_mod_cast h2
    ring_nf
    ring_nf at h2q
    linarith
  · rw [div_le_iff₀ hpq]
    have h1q : (t : ℚ) ≤ (p : ℚ) * ((t + p - 1) / p : Int) := by exact_mod_cast h1
    linarith

lemma isPrefixOf_iff_exists (x : List Char) :
    ∀ u : List Char, x.isPrefixOf u = true ↔ ∃ w, x ++ w = u := by
  induction x with
  | nil => intro u; simp [List.isPrefixOf]
  | cons a x' ih =>
    intro u
    cases u with
    | nil => simp [List.isPrefixOf]
    | cons b u' =>
      simp only [List.isPrefixOf, Bool.and_eq_true, beq_iff_eq, ih u',
        List.cons_append, List.cons.injEq]
      constructor
      · intro ⟨hab, w, hw⟩
        exact ⟨w, hab, hw⟩
      · intro ⟨w, hab, hw⟩
        exact ⟨hab, w, hw⟩

lemma isSuffixOf_iff_exists (y l : List Char) :
    y.isSuffixOf l = true ↔ ∃ w, w ++ y = l := by
  show y.reverse.isPrefixOf l.reverse = true ↔ _
  rw [isPrefixOf_iff_exists]
  constructor
  · intro ⟨w, hw⟩
    refine ⟨w.reverse, ?_⟩
    have := congrArg List.reverse hw
    simpa using this
  · intro ⟨w, hw⟩
    refine ⟨w.reverse, ?_⟩
    have := congrArg List.reverse hw
    simpa using this

lemma isPrefixOf_append_or (x u v : List Char)
    (h : x.isPrefixOf (u ++ v) = true) :
    x.isPrefixOf u = true ∨ u.isPrefixOf x = true := by
  obtain ⟨w, hw⟩ := (isPrefixOf_iff_exists x (u ++ v)).mp h
  rcases List.append_eq_append_iff.mp hw with ⟨a', ha, _⟩ | ⟨c', hc, _⟩
  · exact Or.inl ((isPrefixOf_iff_exists x u).mpr ⟨a', ha.symm⟩)
  · exact Or.inr ((isPrefixOf_iff_exists u x).mpr ⟨c', hc.symm⟩)

lemma isSuffixOf_append_or (y u v : List Char)
    (h : y.isSuffixOf (u ++ v) = true) :
    y.isSuffixOf v = true ∨ v.isSuffixOf y = true := by
  obtain ⟨w, hw⟩ := (isSuffixOf_iff_exists y (u ++ v)).mp h
  rcases List.append_eq_append_iff.mp hw with ⟨a', _, hb⟩ | ⟨c', _, hd⟩
  · exact Or.inr ((isSuffixOf_iff_exists v y).mpr ⟨a', hb.symm⟩)
  · exact Or.inl ((isSuffixOf_iff_exists y v).mpr ⟨c', hd.symm⟩)

/-- Occurrence-freeness splits across an append: a pattern is absent from
`u ++ v` as soon as it is absent from `u`, absent from `v`, and no split of
the pattern matches a suffix of `u` against a prefix of `v`. -/
lemma countOccs_append_eq_zero (p : List Char) (v : List Char)
    (h2 : countOccs p v = 0) :
    ∀ u : List Char, countOccs p u = 0 →
    (∀ k, 0 < k → k < p.length →
      ¬((p.take k).isSuffixOf u = true ∧ (p.drop k).isPrefixOf v = true)) →
    countOccs p (u ++ v) = 0 := by
  intro u
  induction u with
  | nil => intro _ _; simpa using h2
  | cons c u' ih =>
    intro h1 h3
    have h1' : countOccs p u' = 0 := by
      simp only [countOccs] at h1
      omega
    have h3' : ∀ k, 0 < k → k < p.length →
        ¬((p.take k).isSuffixOf u' = true ∧ (p.drop k).isPrefixOf v = true) := by
      intro k hk0 hkl ⟨hsuf, hpre⟩
      obtain ⟨w, hw⟩ := (isSuffixOf_iff_exists _ _).mp hsuf
      exact h3 k hk0 hkl
        ⟨(isSuffixOf_iff_exists _ _).mpr ⟨c :: w, by simp [hw]⟩, hpre⟩
    have htail : countOccs p (u' ++ v) = 0 := ih h1' h3'
    have hhead : p.isPrefixOf ((c :: u') ++ v) = false := by
      cases hpv : p.isPrefixOf ((c :: u') ++ v) with
      | false => rfl
      | true =>
        exfalso
        rcases isPrefixOf_append_or p (c :: u') v hpv with hshort | hlong
        · simp [countOccs, hshort] at h1
        · obtain ⟨w, hw⟩ := (isPrefixOf_iff_exists _ _).mp hlong
          cases w with
          | nil =>
            rw [List.append_nil] at hw
            have hrefl : p.isPrefixOf (c :: u') = true := by
              rw [hw]
              exact (isPrefixOf_iff_exists _ _).mpr ⟨[], List.append_nil _⟩
            simp [countOccs, hrefl] at h1
          | cons w0 w' =>
            have hk0 : 0 < (c :: u').length := by simp
            have hkl : (c :: u').length < p.length := by
              rw [← hw]
              simp
            have htake : p.take (c :: u').length = c :: u' := by
              rw [← hw, List.take_left]
            have hdrop : p.drop (c :: u').length = w0 :: w' := by
              rw [← hw, List.drop_left]
            obtain ⟨z, hz⟩ := (isPrefixOf_iff_exists _ _).mp hpv
            rw [← hw, List.append_assoc] at hz
            have hzv : (w0 :: w') ++ z = v := List.append_cancel_left hz
            refine h3 (c :: u').length hk0 hkl ⟨?_, ?_⟩
            · rw [htake]
              exact (isSuffixOf_iff_exists _ _).mpr ⟨[], rfl⟩
            · rw [hdrop]
              exact (isPrefixOf_iff_exists _ _).mpr ⟨z, hzv⟩
    simp only [List.cons_append] at hhead
    simp [countOccs, hhead, htail]

/-- A pattern that cannot latch onto the " AND " separator in either
direction is absent from an AND-join of strings it is absent from. -/
lemma countOccs_joinSep_and_zero (p : List Char)
    (hsep : countOccs p ((" AND " : String).data) = 0)
    (hpre : ∀ k, k < p.length → 0 < k →
      ((p.drop k).isPrefixOf ((" AND " : String).data) = false ∧
       ((" AND " : String).data).isPrefixOf (p.drop k) = false))
    (hsuf : ∀ k, k < p.length → 0 < k →
      (p.take k).isSuffixOf ((" AND " : String).data) = false) :
    ∀ ss : List String, (∀ s ∈ ss, countOccs p s.data = 0) →
      countOccs p (joinSep " AND " ss).data = 0 := by
  intro ss
  induction ss with
  | nil => intro _; simp [joinSep, countOccs]
  | cons x xs ih =>
    intro h
    cases xs with
    | nil => simpa [joinSep] using h x (by simp)
    | cons y rest =>
      have hx : countOccs p x.data = 0 := h x (by simp)
      have htail : countOccs p (joinSep " AND " (y :: rest)).data = 0 := by
        refine ih ?_
        intro s hs
        exact h s (by simp [hs])
      have hdata : (joinSep " AND " (x :: y :: rest)).data =
          x.data ++ ((" AND " : String).data ++ (joinSep " AND " (y :: rest)).data) := by
        rw [joinSep_cons₂]
        simp [String.data_append]
      rw [hdata]
      have hinner : countOccs p ((" AND " : String).data ++
          (joinSep " AND " (y :: rest)).data) = 0 := by
        refine countOccs_append_eq_zero p _ htail _ hsep ?_
        intro k hk0 hkl hand
        obtain ⟨hs, _⟩ := hand
        rw [hsuf k hkl hk0] at hs
        exact Bool.false_ne_true hs
      refine countOccs_append_eq_zero p _ hinner _ hx ?_
      intro k hk0 hkl hand
      obtain ⟨_, hp2⟩ := hand
      rcases isPrefixOf_append_or _ _ _ hp2 with h1 | h1
      · rw [(hpre k hkl hk0).1] at h1
        exact Bool.false_ne_true h1
      · rw [(hpre k hkl hk0).2] at h1
        exact Bool.false_ne_true h1

/-- The count query contains no occurrence of the space-containing pattern
ORDER BY as soon as the table name and every rendered condition contain
none: no split of the pattern can latch onto the fixed query skeleton. -/
lemma strOccs_build_count_order_by (t : String) (c : FilterCriteria)
    (ht : strOccs "ORDER BY" t = 0)
    (hc : ∀ d ∈ c.conditions, strOccs "ORDER BY" (renderCondition d) = 0) :
    strOccs "ORDER BY" (build_count_query t c) = 0 := by
  have hlen : (("ORDER BY" : String).data).length = 8 := by decide
  have hA1 : ∀ k, k < 8 → 0 < k →
      ((("ORDER BY" : String).data.drop k).isPrefixOf ((" AND " : String).data) = false ∧
       ((" AND " : String).data).isPrefixOf (("ORDER BY" : String).data.drop k) = false) := by
    decide
  have hA2 : ∀ k, k < 8 → 0 < k →
      (("ORDER BY" : String).data.take k).isSuffixOf ((" AND " : String).data) = false := by
    decide
  have hW1 : ∀ k, k < 8 → 0 < k →
      ((("ORDER BY" : String).data.drop k).isPrefixOf ((" WHERE " : String).data) = false ∧
       ((" WHERE " : String).data).isPrefixOf (("ORDER BY" : String).data.drop k) = false) := by
    decide
  have hW2 : ∀ k, k < 8 → 0 < k →
      (("ORDER BY" : String).data.take k).isSuffixOf ((" WHERE " : String).data) = false := by
    decide
  have hL2 : ∀ k, k < 8 → 0 < k →
      (("ORDER BY" : String).data.take k).isSuffixOf
        (("SELECT COUNT(*) FROM " : String).data) = false := by
    decide
  unfold strOccs at ht hc ⊢
  rw [build_count_query_eq]
  cases hcc : c.conditions with
  | nil =>
    have hdata : (("SELECT COUNT(*) FROM " : String) ++ t ++
        (if ([] : List Condition).isEmpty then ""
         else " WHERE " ++ joinSep " AND " (([] : List Condition).map renderCondition))).data =
        ("SELECT COUNT(*) FROM " : String).data ++ t.data := by
      simp [String.data_append]
    rw [hdata]
    refine countOccs_append_eq_zero _ _ ht _ (by decide) ?_
    intro k hk0 hkl hand
    obtain ⟨hs, _⟩ := hand
    rw [hL2 k (hlen ▸ hkl) hk0] at hs
    exact Bool.false_ne_true hs
  | cons d ds =>
    have hJ : countOccs (("ORDER BY" : String).data)
        (joinSep " AND " ((d :: ds).map renderCondition)).data = 0 := by
      refine countOccs_joinSep_and_zero _ (by decide)
        (fun k hkl hk0 => hA1 k (hlen ▸ hkl) hk0)
        (fun k hkl hk0 => hA2 k (hlen ▸ hkl) hk0) _ ?_
      intro s hs
      obtain ⟨d', hd', rfl⟩ := List.mem_map.mp hs
      exact hc d' (hcc ▸ hd')
    have hWJ : countOccs (("ORDER BY" : String).data)
        ((" WHERE " : String).data ++
          (joinSep " AND " ((d :: ds).map renderCondition)).data) = 0 := by
      refine countOccs_append_eq_zero _ _ hJ _ (by decide) ?_
      intro k hk0 hkl hand
      obtain ⟨hs, _⟩ := hand
      rw [hW2 k (hlen ▸ hkl) hk0] at hs
      exact Bool.false_ne_true hs
    have hTWJ : countOccs (("ORDER BY" : String).data)
        (t.data ++ ((" WHERE " : String).data ++
          (joinSep " AND " ((d :: ds).map renderCondition)).data)) = 0 := by
      refine countOccs_append_eq_zero _ _ hWJ _ ht ?_
      intro k hk0 hkl hand
      obtain ⟨_, hp2⟩ := hand
      rcases isPrefixOf_append_or _ _ _ hp2 with h1 | h1
      · rw [(hW1 k (hlen ▸ hkl) hk0).1] at h1
        exact Bool.false_ne_true h1
      · rw [(hW1 k (hlen ▸ hkl) hk0).2] at h1
        exact Bool.false_ne_true h1
    have hdata : (("SELECT COUNT(*) FROM " : String) ++ t ++
        (if (d :: ds).isEmpty then ""
         else " WHERE " ++ joinSep " AND " ((d :: ds).map renderCondition))).data =
        ("SELECT COUNT(*) FROM " : String).data ++
          (t.data ++ ((" WHERE " : String).data ++
            (joinSep " AND " ((d :: ds).map renderCondition)).data)) := by
      simp [String.data_append]
    rw [hdata]
    refine countOccs_append_eq_zero _ _ hTWJ _ (by decide) ?_
    intro k hk0 hkl hand
    obtain ⟨hs, _⟩ := hand
    rw [hL2 k (hlen ▸ hkl) hk0] at hs
    exact Bool.false_ne_true hs

/-- C1: for every table name and criteria, `build_select_query` emits
`SELECT * FROM table`, then the AND-joined WHERE clause iff conditions is
non-empty, then the comma-joined ORDER BY clause (ASC for Ascending, DESC for
Descending) iff sort is non-empty, then LIMIT iff present, then OFFSET iff
present, in this fixed order; in particular the two-condition example on
`llm_model_pricing` produces exactly the expected string. -/
theorem c1_build_select_query_layout (table : String) (c : FilterCriteria) :
    build_select_query table c =
      "SELECT * FROM " ++ table
      ++ (if c.conditions.isEmpty then ""
          else " WHERE " ++ joinSep " AND " (c.conditions.map renderCondition))
      ++ (if c.sort.isEmpty then ""
          else " ORDER BY " ++ joinSep ", " (c.sort.map renderSort))
      ++ (match c.limit with | some l => " LIMIT " ++ toString l | none => "")
      ++ (match c.offset with | some o => " OFFSET " ++ toString o | none => "")
    ∧ (∀ f : String, renderSort (SortOrder.mk f SortDirection.Ascending) = f ++ " ASC")
    ∧ (∀ f : String, renderSort (SortOrder.mk f SortDirection.Descending) = f ++ " DESC")
    ∧ build_select_query "llm_model_pricing"
        { conditions := [Condition.eq "provider" (ConditionValue.String "openai"),
                         Condition.gt "price" (ConditionValue.Integer 10)],
          sort := [], limit := none, offset := none } =
        "SELECT * FROM llm_model_pricing WHERE provider = 'openai' AND price > 10" :=
  ⟨build_select_query_eq table c,
   fun f => by
     show f ++ " " ++ "ASC" = f ++ " ASC"
     rw [String.append_assoc]
     rfl,
   fun f => by
     show f ++ " " ++ "DESC" = f ++ " DESC"
     rw [String.append_assoc]
     rfl,
   by decide⟩

/-- C2: `format_value` on a `String` value starts and ends with a single
quote, doubles every embedded single quote, alters no other character, and
the output contains exactly `2 * count + 2` single-quote characters. -/
theorem c2_format_value_string_escaping (s : String) :
    (format_value (ConditionValue.String s)).data.head? = some '\'' ∧
    (format_value (ConditionValue.String s)).data.getLast? = some '\'' ∧
    (format_value (ConditionValue.String s)).data =
      '\'' :: (s.data.flatMap fun c => if c = '\'' then ['\'', '\''] else [c]) ++ ['\''] ∧
    (format_value (ConditionValue.String s)).data.count '\'' =
      2 * s.data.count '\'' + 2 := by
  have hdata : (format_value (ConditionValue.String s)).data =
      '\'' :: escapeQuotes s.data ++ ['\''] := by
    show (("'" : String) ++ replaceQuote s ++ "'").data = _
    simp [String.data_append, replaceQuote]
  refine ⟨?_, ?_, ?_, ?_⟩
  · rw [hdata]; rfl
  · rw [hdata]
    rw [show '\'' :: escapeQuotes s.data ++ ['\''] =
      ('\'' :: escapeQuotes s.data) ++ ['\''] from rfl]
    exact List.getLast?_concat _
  · rw [hdata, escapeQuotes_eq_flatMap]
  · rw [hdata]
    simp [List.count_cons, List.count_append, count_escapeQuotes]

/-- C3 as frozen is false: a criteria whose condition value is the string
LIMIT makes `build_count_query` emit an output that does contain the
substring LIMIT, although the criteria's sort, limit and offset are all
empty. -/
theorem c3_count_query_counterexample :
    0 < strOccs "LIMIT" (build_count_query "t"
      { conditions := [Condition.eq "f" (ConditionValue.String "LIMIT")],
        sort := [], limit := none, offset := none }) := by decide

/-- C3 amended: `build_count_query` emits `SELECT COUNT(*) FROM table` plus
the same AND-joined WHERE clause as `build_select_query` when conditions is
non-empty; its output is entirely independent of sort, limit and offset; and
it contains no occurrence of `ORDER BY`, `LIMIT` or `OFFSET` provided the
table name and the rendered conditions contain none. -/
theorem c3_count_query_amended (t : String) (c : FilterCriteria) :
    (build_count_query t c =
      "SELECT COUNT(*) FROM " ++ t
      ++ (if c.conditions.isEmpty then ""
          else " WHERE " ++ joinSep " AND " (c.conditions.map renderCondition)))
    ∧ build_count_query t c =
        build_count_query t { conditions := c.conditions, sort := [], limit := none, offset := none }
    ∧ (¬ c.conditions.isEmpty →
        build_count_query t c = "SELECT COUNT(*) FROM " ++ t ++ " WHERE " ++ build_where_clause c
        ∧ ∃ rest : String, build_select_query t c =
            "SELECT * FROM " ++ t ++ " WHERE " ++ build_where_clause c ++ rest)
    ∧ ((strOccs "ORDER BY" t = 0 ∧ ∀ d ∈ c.conditions, strOccs "ORDER BY" (renderCondition d) = 0) →
        strOccs "ORDER BY" (build_count_query t c) = 0)
    ∧ ((strOccs "LIMIT" t = 0 ∧ ∀ d ∈ c.conditions, strOccs "LIMIT" (renderCondition d) = 0) →
        strOccs "LIMIT" (build_count_query t c) = 0)
    ∧ ((strOccs "OFFSET" t = 0 ∧ ∀ d ∈ c.conditions, strOccs "OFFSET" (renderCondition d) = 0) →
        strOccs "OFFSET" (build_count_query t c) = 0) := by
  refine ⟨build_count_query_eq t c, ?_, ?_, ?_, ?_, ?_⟩
  · rw [build_count_query_eq, build_count_query_eq]
  · intro hne
    have hcc : c.conditions.isEmpty = false := by
      cases hcv : c.conditions.isEmpty
      · rfl
      · exact absurd hcv hne
    have hwc : build_where_clause c = joinSep " AND " (c.conditions.map renderCondition) := by
      unfold build_where_clause
      rw [hcc]
      simp
    constructor
    · rw [build_count_query_eq, hcc, hwc]
      simp [String.append_assoc]
    · refine ⟨(if c.sort.isEmpty then ""
          else " ORDER BY " ++ joinSep ", " (c.sort.map renderSort))
          ++ (match c.limit with | some l => " LIMIT " ++ toString l | none => "")
          ++ (match c.offset with | some o => " OFFSET " ++ toString o | none => ""), ?_⟩
      rw [build_select_query_eq, hcc, hwc]
      simp [String.append_assoc]
  · intro ⟨ht, hc⟩
    exact strOccs_build_count_order_by t c ht hc
  · intro ⟨ht, hc⟩
    have := strOccs_build_count "LIMIT" t c (by decide) (by decide) (by decide)
      (by decide) (by decide) ht hc
    rw [this, (by decide : strOccs "LIMIT" "WHERE" = 0),
      (by decide : strOccs "LIMIT" "AND" = 0)]
    cases c.conditions.isEmpty <;> simp
  · intro ⟨ht, hc⟩
    have := strOccs_build_count "OFFSET" t c (by decide) (by decide) (by decide)
      (by decide) (by decide) ht hc
    rw [this, (by decide : strOccs "OFFSET" "WHERE" = 0),
      (by decide : strOccs "OFFSET" "AND" = 0)]
    cases c.conditions.isEmpty <;> simp

/-- Witness for the amended C3 at a concrete table and criteria. -/
theorem c3_count_query_amended_witness :
    strOccs "ORDER BY" (build_count_query "users"
      { conditions := [Condition.eq "active" (ConditionValue.Boolean true)],
        sort := [SortOrder.asc "name"], limit := some 10, offset := some 20 }) = 0
    ∧ strOccs "LIMIT" (build_count_query "users"
      { conditions := [Condition.eq "active" (ConditionValue.Boolean true)],
        sort := [SortOrder.asc "name"], limit := some 10, offset := some 20 }) = 0
    ∧ strOccs "OFFSET" (build_count_query "users"
      { conditions := [Condition.eq "active" (ConditionValue.Boolean true)],
        sort := [SortOrder.asc "name"], limit := some 10, offset := some 20 }) = 0 :=
  ⟨(c3_count_query_amended "users" _).2.2.2.1 ⟨by decide, by decide⟩,
   (c3_count_query_amended "users" _).2.2.2.2.1 ⟨by decide, by decide⟩,
   (c3_count_query_amended "users" _).2.2.2.2.2 ⟨by decide, by decide⟩⟩

/-- C4 as frozen is false: a single condition whose value is the string AND
already makes the output of `build_select_query` contain one occurrence of
the substring AND, where the claim demands zero. -/
theorem c4_where_and_counterexample :
    ¬ (strOccs "AND" (build_select_query "t"
        { conditions := [Condition.eq "f" (ConditionValue.String "AND")],
          sort := [], limit := none, offset := none }) =
       ([Condition.eq "f" (ConditionValue.String "AND")].length - 1)) := by decide

/-- C4 amended: the output of `build_select_query` contains WHERE iff
conditions is non-empty, and contains exactly one AND per adjacent pair of
conditions, provided the table name, the rendered conditions, the rendered
sort clauses and the decimal renderings of limit and offset contain no
occurrence of WHERE respectively AND themselves. -/
theorem c4_where_and_counts (t : String) (c : FilterCriteria)
    (hWt : strOccs "WHERE" t = 0)
    (hWc : ∀ d ∈ c.conditions, strOccs "WHERE" (renderCondition d) = 0)
    (hWs : ∀ s ∈ c.sort, strOccs "WHERE" (renderSort s) = 0)
    (hWl : ∀ n : Int, c.limit = some n → strOccs "WHERE" (toString n) = 0)
    (hWo : ∀ n : Int, c.offset = some n → strOccs "WHERE" (toString n) = 0)
    (hAt : strOccs "AND" t = 0)
    (hAc : ∀ d ∈ c.conditions, strOccs "AND" (renderCondition d) = 0)
    (hAs : ∀ s ∈ c.sort, strOccs "AND" (renderSort s) = 0)
    (hAl : ∀ n : Int, c.limit = some n → strOccs "AND" (toString n) = 0)
    (hAo : ∀ n : Int, c.offset = some n → strOccs "AND" (toString n) = 0) :
    (0 < strOccs "WHERE" (build_select_query t c) ↔ c.conditions ≠ []) ∧
    strOccs "AND" (build_select_query t c) = c.conditions.length - 1 := by
  constructor
  · have hW := strOccs_build_select "WHERE" t c (by decide) (by decide) (by decide)
      (by decide) (by decide) (by decide) (by decide) (by decide) (by decide) (by decide)
      hWt hWc hWs hWl hWo
    rw [hW, (by decide : strOccs "WHERE" "WHERE" = 1),
      (by decide : strOccs "WHERE" "AND" = 0)]
    cases hcc : c.conditions.isEmpty
    · have hne : c.conditions ≠ [] := by
        intro h
        rw [h] at hcc
        simp at hcc
      simp [hne]
    · simp [List.isEmpty_iff.mp hcc]
  · have hA := strOccs_build_select "AND" t c (by decide) (by decide) (by decide)
      (by decide) (by decide) (by decide) (by decide) (by decide) (by decide) (by decide)
      hAt hAc hAs hAl hAo
    rw [hA, (by decide : strOccs "AND" "WHERE" = 0),
      (by decide : strOccs "AND" "AND" = 1)]
    cases hcc : c.conditions.isEmpty
    · simp
    · simp [List.isEmpty_iff.mp hcc]

/-- Witness for the amended C4 at a concrete table and criteria using every
clause kind. -/
theorem c4_where_and_counts_witness :
    (0 < strOccs "WHERE" (build_select_query "llm_model_pricing"
      { conditions := [Condition.eq "provider" (ConditionValue.String "openai"),
                       Condition.gt "price" (ConditionValue.Integer 10)],
        sort := [SortOrder.asc "model_name"], limit := some 10, offset := some 20 }) ↔
      ([Condition.eq "provider" (ConditionValue.String "openai"),
        Condition.gt "price" (ConditionValue.Integer 10)] : List Condition) ≠ []) ∧
    strOccs "AND" (build_select_query "llm_model_pricing"
      { conditions := [Condition.eq "provider" (ConditionValue.String "openai"),
                       Condition.gt "price" (ConditionValue.Integer 10)],
        sort := [SortOrder.asc "model_name"], limit := some 10, offset := some 20 }) =
      ([Condition.eq "provider" (ConditionValue.String "openai"),
        Condition.gt "price" (ConditionValue.Integer 10)] : List Condition).length - 1 :=
  c4_where_and_counts "llm_model_pricing" _
    (by decide) (by decide) (by decide)
    (fun n hn => by injection hn with h; rw [← h]; decide)
    (fun n hn => by injection hn with h; rw [← h]; decide)
    (by decide) (by decide) (by decide)
    (fun n hn => by injection hn with h; rw [← h]; decide)
    (fun n hn => by injection hn with h; rw [← h]; decide)

/-- C5: the In operator renders a List value as it lists each element
formatted by `format_value` joined by a comma and space inside parentheses,
and degrades to an equality clause for every non-List value; concretely it
renders the two-provider example and the bare integer example as expected. -/
theorem c5_in_operator (f : String) (vs : List ConditionValue) (v : ConditionValue)
    (hv : v.isList = false) :
    renderCondition (Condition.mk f Operator.In (ConditionValue.List vs)) =
      f ++ " IN (" ++ joinSep ", " (vs.map format_value) ++ ")" ∧
    renderCondition (Condition.mk f Operator.In v) = f ++ " = " ++ format_value v ∧
    renderCondition (Condition.mk "provider" Operator.In
      (ConditionValue.List [ConditionValue.String "openai",
        ConditionValue.String "anthropic"])) = "provider IN ('openai', 'anthropic')" ∧
    renderCondition (Condition.mk "field" Operator.In (ConditionValue.Integer 5)) =
      "field = 5" := by
  refine ⟨?_, ?_, by decide, by decide⟩
  · simp [renderCondition, format_list_eq_map]
  · cases v <;> simp_all [renderCondition, ConditionValue.isList]

/-- Witness for C5 at a concrete non-List value. -/
theorem c5_in_operator_witness :
    renderCondition (Condition.mk "x" Operator.In (ConditionValue.Integer 7)) =
      "x" ++ " = " ++ format_value (ConditionValue.Integer 7) :=
  (c5_in_operator "x" [] (ConditionValue.Integer 7) rfl).2.1

/-- C6: IsNull and IsNotNull render fixed clauses that do not depend on the
paired value in any way. -/
theorem c6_null_checks_ignore_value (f : String) (v v1 v2 : ConditionValue) :
    renderCondition (Condition.mk f Operator.IsNull v) = f ++ " IS NULL" ∧
    renderCondition (Condition.mk f Operator.IsNotNull v) = f ++ " IS NOT NULL" ∧
    renderCondition (Condition.mk f Operator.IsNull v1) =
      renderCondition (Condition.mk f Operator.IsNull v2) ∧
    renderCondition (Condition.mk f Operator.IsNotNull v1) =
      renderCondition (Condition.mk f Operator.IsNotNull v2) :=
  ⟨rfl, rfl, rfl, rfl⟩

/-- C7: `Pagination::offset` is exactly `(page - 1) * per_page` and
`Pagination::limit` is exactly `per_page`, for every page and per_page with
no validation whatsoever. -/
theorem c7_pagination_arithmetic (page per_page : Int) :
    (Pagination.mk page per_page).offset = (page - 1) * per_page ∧
    (Pagination.mk page per_page).limit = per_page :=
  ⟨rfl, rfl⟩

/-- C8: for non-negative total_items and positive per_page, `Page::new`
succeeds and stores `total_pages = ceil(total_items / per_page)`, computed by
the truncating integer formula, and the navigation queries of the resulting
page behave exactly as claimed. -/
theorem c8_page_new_total_pages (T : Type) (items : List T)
    (page per_page total_items : Int)
    (h1 : 0 ≤ total_items) (h2 : 1 ≤ per_page) :
    ∃ p : Page T, Page.new items page per_page total_items = some p ∧
      p.total_pages = ⌈(total_items : ℚ) / (per_page : ℚ)⌉ ∧
      p.total_pages = Int.tdiv (total_items + per_page - 1) per_page ∧
      p.items = items ∧ p.page = page ∧ p.per_page = per_page ∧
      p.total_items = total_items ∧
      (p.has_next = true ↔ p.page < p.total_pages) ∧
      (p.has_previous = true ↔ 1 < p.page) ∧
      (∀ q : Int, p.next_page = some q ↔ p.page < p.total_pages ∧ q = p.page + 1) ∧
      (∀ q : Int, p.previous_page = some q ↔ 1 < p.page ∧ q = p.page - 1) := by
  have hne : per_page ≠ 0 := by omega
  refine ⟨Page.mk items page per_page total_items
    (Int.tdiv (total_items + per_page - 1) per_page), ?_, ?_, rfl, rfl, rfl, rfl, rfl,
    ?_, ?_, ?_, ?_⟩
  · simp [Page.new, i64Div, hne]
  · exact (ceil_div_eq_tdiv total_items per_page h1 h2).symm
  · simp [Page.has_next]
  · simp [Page.has_previous]
  · intro q
    by_cases h : page < Int.tdiv (total_items + per_page - 1) per_page
    · simp [Page.next_page, Page.has_next, h]
      omega
    · simp [Page.next_page, Page.has_next, h]
  · intro q
    by_cases h : (1 : Int) < page
    · simp [Page.previous_page, Page.has_previous, h]
      omega
    · simp [Page.previous_page, Page.has_previous, h]

/-- Witness for C8: twenty-one items at ten per page give three pages. -/
theorem c8_page_new_total_pages_witness :
    ∃ p : Page Unit, Page.new ([] : List Unit) 2 10 21 = some p ∧
      p.total_pages = ⌈(21 : ℚ) / (10 : ℚ)⌉ ∧
      p.total_pages = Int.tdiv (21 + 10 - 1) 10 ∧
      p.items = [] ∧ p.page = 2 ∧ p.per_page = 10 ∧ p.total_items = 21 ∧
      (p.has_next = true ↔ p.page < p.total_pages) ∧
      (p.has_previous = true ↔ 1 < p.page) ∧
      (∀ q : Int, p.next_page = some q ↔ p.page < p.total_pages ∧ q = p.page + 1) ∧
      (∀ q : Int, p.previous_page = some q ↔ 1 < p.page ∧ q = p.page - 1) :=
  c8_page_new_total_pages Unit [] 2 10 21 (by decide) (by decide)

/-- C9: the division in `Page::new` is unguarded: per_page equal to zero is a
divide-by-zero (modelled as `none`, a panic in Rust); any per_page of at
least one succeeds; and there are negative per_page and negative total_items
inputs whose truncated-division result differs from the ceiling reading. -/
theorem c9_page_new_division_unguarded :
    (∀ (items : List Unit) (page total_items : Int),
      Page.new items page 0 total_items = none) ∧
    (∀ (items : List Unit) (page per_page total_items : Int), 1 ≤ per_page →
      (Page.new items page per_page total_items).isSome = true) ∧
    (∃ p : Page Unit, Page.new [] 1 (-2) 5 = some p ∧
      p.total_pages ≠ ⌈(5 : ℚ) / ((-2 : Int) : ℚ)⌉) ∧
    (∃ p : Page Unit, Page.new [] 1 2 (-2) = some p ∧
      p.total_pages ≠ ⌈((-2 : Int) : ℚ) / (2 : ℚ)⌉) := by
  refine ⟨?_, ?_, ?_, ?_⟩
  · intro items page total_items
    simp [Page.new, i64Div]
  · intro items page per_page total_items hpp
    have hne : per_page ≠ 0 := by omega
    simp [Page.new, i64Div, hne]
  · refine ⟨Page.mk [] 1 (-2) 5 (-1), rfl, ?_⟩
    have : ⌈(5 : ℚ) / ((-2 : Int) : ℚ)⌉ = -2 := by
      rw [Int.ceil_eq_iff]
      norm_num
    rw [this]
    decide
  · refine ⟨Page.mk [] 1 2 (-2) 0, rfl, ?_⟩
    have : ⌈((-2 : Int) : ℚ) / (2 : ℚ)⌉ = -1 := by
      rw [Int.ceil_eq_iff]
      norm_num
    rw [this]
    decide

/-- Witness for C9 at a concrete positive per_page. -/
theorem c9_page_new_division_unguarded_witness :
    (Page.new ([] : List Unit) 1 3 7).isSome = true :=
  c9_page_new_division_unguarded.2.1 [] 1 3 7 (by decide)

/-- C10: each criteria builder touches only its own part: with_condition and
with_sort append one element at the end of their list and leave everything
else unchanged, with_limit and with_offset only set their own option, and no
argument is rejected, so a negative limit or offset is emitted verbatim. -/
theorem c10_builders_frame (c : FilterCriteria) (cond : Condition)
    (s : SortOrder) (l o : Int) :
    (c.with_condition cond).conditions = c.conditions ++ [cond] ∧
    (c.with_condition cond).sort = c.sort ∧
    (c.with_condition cond).limit = c.limit ∧
    (c.with_condition cond).offset = c.offset ∧
    (c.with_sort s).conditions = c.conditions ∧
    (c.with_sort s).sort = c.sort ++ [s] ∧
    (c.with_sort s).limit = c.limit ∧
    (c.with_sort s).offset = c.offset ∧
    (c.with_limit l).conditions = c.conditions ∧
    (c.with_limit l).sort = c.sort ∧
    (c.with_limit l).limit = some l ∧
    (c.with_limit l).offset = c.offset ∧
    (c.with_offset o).conditions = c.conditions ∧
    (c.with_offset o).sort = c.sort ∧
    (c.with_offset o).limit = c.limit ∧
    (c.with_offset o).offset = some o ∧
    build_select_query "t" (FilterCriteria.new.with_limit (-5)) =
      "SELECT * FROM t LIMIT -5" ∧
    build_select_query "t" (FilterCriteria.new.with_offset (-7)) =
      "SELECT * FROM t OFFSET -7" :=
  ⟨rfl, rfl, rfl, rfl, rfl, rfl, rfl, rfl, rfl, rfl, rfl, rfl, rfl, rfl, rfl, rfl,
   by decide, by decide⟩
